import Mathlib

/-!
Shallow embedding of the EMA-8314 UDP client library (src/ema8314.py).

Bytes are modelled as `Nat` (values 0..255 where it matters), byte strings
as `List Nat`.  `struct.pack` string fields (`"7s"`, `"8s"`) zero-pad or
truncate to the fixed width; multi-byte integers use the endianness the
source requests; IEEE-754 float32 payload fields are carried as their raw
4-byte slices (the library never computes with them, it only moves them
between the wire and the caller).  A Python exception escaping a function
is modelled as `Option.none` / `Except.error`: no result and no status
flag is produced.  Response decoding mirrors `struct.unpack` with a
34-character format, which raises unless the buffer is exactly 34 bytes.
-/

namespace EMA8314

/-- Heterogeneous Python value, needed because the library mixes ints,
strings and raw byte slices inside one result tuple (e.g. the unit slot
of `all_temperature_read` stays the integer `0` when the unit byte is
unrecognized, while recognized bytes give the string `"C"`/`"F"`). -/
inductive PyVal where
  | intV : Int → PyVal
  | strV : String → PyVal
  | bytesV : List Nat → PyVal
deriving DecidableEq

/-- Python exception kinds the embedding distinguishes. -/
inductive PyError where
  | unboundLocalError : PyError
deriving DecidableEq

/-- Module-level session state of ema8314.py: the globals HOSTIP, HOSTPORT,
TARGETIP, TARGETPORT, PASSWORD set by `init`. -/
structure Session where
  hostip : String
  hostport : Nat
  targetip : String
  targetport : Nat
  password : String
deriving DecidableEq

/-- The `init` function: stores the four endpoint fields and the password
in the module globals (lines 123-133 of src/ema8314.py). -/
def init_session (host_ip : String) (host_port : Nat) (target_ip : String)
    (target_port : Nat) (password : String) : Session :=
  ⟨host_ip, host_port, target_ip, target_port, password⟩

/-- ASCII bytes of a string (the library only uses ASCII data, where
UTF-8 encoding is the identity on code points). -/
def strBytes (s : String) : List Nat :=
  s.toList.map Char.toNat

/-- struct.pack "ns" semantics: truncate to n bytes, or zero-pad up to n. -/
def padTrunc (n : Nat) (bs : List Nat) : List Nat :=
  bs.take n ++ List.replicate (n - bs.length) 0

/-- The 7-byte card identifier `"EMA8314"` (_CARDID). -/
def cardId : List Nat := [0x45, 0x4D, 0x41, 0x38, 0x33, 0x31, 0x34]

/-- Common 16-byte request header packed by every command:
`struct.pack("7s8sc", _CARDID, PASSWORD, code)`. -/
def header (pw : String) (cmd : Nat) : List Nat :=
  cardId ++ padTrunc 8 (strBytes pw) ++ [cmd]

/-- `int.to_bytes(2, "little")` for a port number. -/
def u16le (n : Nat) : List Nat := [n % 256, n / 256 % 256]

/-- Octets of a dotted-quad IP string, as `change_ip` computes them:
`int(new_ip.split(".")[i])` for i = 0..3 (well-formed addresses; Python
raises on non-numeric pieces, which no claim exercises). -/
def ip_octets (ip : String) : List Nat :=
  (List.range 4).map (fun i => (((ip.splitOn ".").getD i "").toNat?).getD 0)

/-- `change_socket_port` (lines 184-219): packs `"7s8sc2s"` with command
byte 0x03 and the new port little-endian, sends it to the cached target
endpoint and waits for a reply.  The function declares no `global` and
assigns none of HOSTIP/HOSTPORT/TARGETIP/TARGETPORT/PASSWORD, so the
session state after the call is the state before it; the pair returned
here is (state after the call, request frame sent). -/
def change_socket_port_run (s : Session) (new_socket_port : Nat) :
    Session × List Nat :=
  (s, header s.password 0x03 ++ u16le new_socket_port)

/-- `change_ip` (lines 292-332): packs `"7s8sccccc"` with command byte 0x06
and the four address octets.  Like `change_socket_port` it declares no
`global` and writes no module state, so the session is unchanged. -/
def change_ip_run (s : Session) (new_ip : String) : Session × List Nat :=
  (s, header s.password 0x06 ++ ip_octets new_ip)

/-- Unit decode of `channel_temperature_read` (lines 586-590): two
independent `if` statements assign `unit = "C"` for byte 0x01 and
`unit = "F"` for byte 0x02; any other byte leaves the local `unit`
unassigned, so building the result raises UnboundLocalError — modelled
as `none`. -/
def channel_temperature_read_unit (b : Nat) : Option String :=
  if b = 1 then some "C" else if b = 2 then some "F" else none

/-- Unit decode of `all_temperature_read` (lines 629-637) and of the unit
slots of `all_temperature_limit_read` (lines 937-943): the slot is
pre-initialized to the integer 0 and overwritten with `"C"`/`"F"` only
for bytes 0x01/0x02, so an unrecognized byte silently leaves the
integer 0 in the result. -/
def all_temperature_read_unit (b : Nat) : PyVal :=
  if b = 1 then PyVal.strV "C" else if b = 2 then PyVal.strV "F" else PyVal.intV 0

/-- Four-byte slice of a response at offset `i`: the raw bytes of one
float32 field as `struct.unpack` consumes them. -/
def slice4 (msg : List Nat) (i : Nat) : List Nat := (msg.drop i).take 4

/-- Full decode of `channel_temperature_read` (lines 582-596):
`struct.unpack("xxxxfxxxxxxxxxxxxcxxxxxxxxxxxxx", msg)` needs exactly 34
bytes (float32 raw bytes at offset 4, unit byte at offset 20), then the
unit is mapped and the flag is `msg[-2]` = byte 32.  An unrecognized unit
byte raises before any result is produced. -/
def channel_temperature_read_decode (msg : List Nat) :
    Option ((List Nat × String) × Nat) :=
  if msg.length = 34 then
    match channel_temperature_read_unit (msg.getD 20 0) with
    | some u => some ((slice4 msg 4, u), msg.getD 32 0)
    | none => none
  else none

/-- Decode of `reboot_device` (lines 173-181): a 34 skip-byte unpack
(which still requires exactly 34 bytes) followed by `flag = msg[0][-2]`. -/
def reboot_device_decode (msg : List Nat) : Option (Unit × Nat) :=
  if msg.length = 34 then some ((), msg.getD 32 0) else none

/-- The `flag = msg[0][-2]` extraction performed verbatim by every command
in the catalog: Python's negative index reads element `length - 2` and
raises IndexError on shorter buffers. -/
def flag_of (msg : List Nat) : Option Nat :=
  if 2 ≤ msg.length then msg.get? (msg.length - 2) else none

/-- Request frame of `output_set` (lines 398-405): bitmask
`1*o0 | 2*o1 | 4*o2 | 8*o3`, packed as `"7s8sccc"` with command byte
0x30, a reserved zero byte and the mask. -/
def output_set_frame (pw : String) (o0 o1 o2 o3 : Nat) : List Nat :=
  header pw 0x30 ++ [0, (1 * o0) ||| (2 * o1) ||| (4 * o2) ||| (8 * o3)]

/-- Request frame of `output_mode_set` (lines 486-494): the function is
documented as command 0x32 (comment on line 484) but packs the byte
`"\x30"` on the wire, with the same reserved byte and the same bitmask
expression as `output_set`. -/
def output_mode_set_frame (pw : String) (m0 m1 m2 m3 : Nat) : List Nat :=
  header pw 0x30 ++ [0, (1 * m0) ||| (2 * m1) ||| (4 * m2) ||| (8 * m3)]

/-- The bitmask packing shared by `output_set`, `output_mode_set`,
`control_mask_set` and `wdt_set`: bit i = channel i. -/
def pack_bits (b0 b1 b2 b3 : Nat) : Nat :=
  (1 * b0) ||| (2 * b1) ||| (4 * b2) ||| (8 * b3)

/-- The bitmask unpacking shared by `output_read`, `output_mode_read`,
`all_sensor_status_read`, `control_mask_read` and `wdt_read`:
`(x & 1, (x & 2) >> 1, (x & 4) >> 2, (x & 8) >> 3)`. -/
def unpack_bits (x : Nat) : Nat × Nat × Nat × Nat :=
  (x &&& 1, (x &&& 2) >>> 1, (x &&& 4) >>> 2, (x &&& 8) >>> 3)

/-- Decode of `control_status_read` (lines 1246-1252): status byte at
offset 24, result `ord(byte) - 1` as a Python int (no range check), flag
at byte 32. -/
def control_status_read_decode (msg : List Nat) : Option (Int × Nat) :=
  if msg.length = 34 then
    some ((msg.getD 24 0 : Int) - 1, msg.getD 32 0)
  else none

/-- Native little-endian signed 16-bit read, for the `"h"` field of
`wdt_read`. -/
def i16le (lo hi : Nat) : Int :=
  if lo + 256 * hi < 32768 then (lo + 256 * hi : Int)
  else (lo + 256 * hi : Int) - 65536

/-- Decode of `wdt_read` (lines 1554-1566): `"hcc"` then 30 skip bytes —
wait time int16 at offset 0, outputs bitmask byte at offset 2, watchdog
status byte at offset 3 decoded as `ord(byte) - 1` with no range check,
flag at byte 32. -/
def wdt_read_decode (msg : List Nat) :
    Option ((Nat × Nat × Nat × Nat) × Int × Int × Nat) :=
  if msg.length = 34 then
    some (unpack_bits (msg.getD 2 0),
          i16le (msg.getD 0 0) (msg.getD 1 0),
          (msg.getD 3 0 : Int) - 1,
          msg.getD 32 0)
  else none

/-- Decode of `firmware_version_read` (lines 349-363): version bytes at
offsets 1 and 2, result string `str(ord(b1)) + "." + str(ord(b2))`. -/
def firmware_version_read_decode (msg : List Nat) : Option (String × Nat) :=
  if msg.length = 34 then
    some (toString (msg.getD 1 0) ++ "." ++ toString (msg.getD 2 0), msg.getD 32 0)
  else none

/-- The two request frames sent by `all_temperature_limit_read`
(lines 901-925): command 0x55 with pair selector payload `[0,0,0,0]`
first and `[0,1,0,1]` second — one frame per request/response round
trip. -/
def all_temperature_limit_read_requests (pw : String) : List (List Nat) :=
  [header pw 0x55 ++ [0, 0, 0, 0], header pw 0x55 ++ [0, 1, 0, 1]]

/-- Full run of `all_temperature_limit_read` (lines 901-952) against the
two reply frames it receives, in order.  Each reply is unpacked with
`"xxxxffffccxxxxxxxxxxxx"` (exactly 34 bytes; float32 raw slices at
offsets 4, 8, 12, 16 and unit bytes at 20, 21); the result lists the
(low, high, unit) triples of channels 0 and 1 from the first reply and
channels 2 and 3 from the second, and the flag is byte 32 of the second
(last-received) reply.  The pair is (request frames sent, outcome). -/
def all_temperature_limit_read_run (pw : String) (r1 r2 : List Nat) :
    List (List Nat) × Option (List PyVal × Nat) :=
  (all_temperature_limit_read_requests pw,
   if r1.length = 34 ∧ r2.length = 34 then
     some ([PyVal.bytesV (slice4 r1 4), PyVal.bytesV (slice4 r1 8),
            all_temperature_read_unit (r1.getD 20 0),
            PyVal.bytesV (slice4 r1 12), PyVal.bytesV (slice4 r1 16),
            all_temperature_read_unit (r1.getD 21 0),
            PyVal.bytesV (slice4 r2 4), PyVal.bytesV (slice4 r2 8),
            all_temperature_read_unit (r2.getD 20 0),
            PyVal.bytesV (slice4 r2 12), PyVal.bytesV (slice4 r2 16),
            all_temperature_read_unit (r2.getD 21 0)], r2.getD 32 0)
   else none)

/-- The (low, high, unit) triple of pair-slot `j` (0 or 1) of one 0x55
reply frame, as the response schema lays it out. -/
def channel_limit_triple (msg : List Nat) (j : Nat) : List PyVal :=
  [PyVal.bytesV (slice4 msg (4 + 8 * j)), PyVal.bytesV (slice4 msg (8 + 8 * j)),
   all_temperature_read_unit (msg.getD (20 + j) 0)]

/-- The two request frames sent by the `for i in range(2)` loop of
`all_temperature_limit_set` (lines 844-873): command 0x54 packed as
`"7s8scccccffffcc"` — reserved 0, selector i, reserved 0, selector i,
then low/high float32 payloads of channels 2i and 2i+1 and their two
unit bytes.  Temperatures are passed as their raw 4-byte encodings. -/
def all_temperature_limit_set_requests (pw : String) (lows highs : Nat → List Nat)
    (units : Nat → Nat) : List (List Nat) :=
  (List.range 2).map (fun i =>
    header pw 0x54 ++ [0, i, 0, i] ++ lows (2 * i) ++ highs (2 * i) ++
      lows (2 * i + 1) ++ highs (2 * i + 1) ++ [units (2 * i), units (2 * i + 1)])

/-- The 16-byte reserved field of commands 0x56/0x58: the source's string
literal uses backslash line continuations whose indentation becomes part
of the string, so the packed 16 bytes are four NULs followed by twelve
spaces (the `"16s"` width truncates the rest). -/
def reserved16 : List Nat := [0, 0, 0, 0] ++ List.replicate 12 32

/-- Run of `channel_temperature_limit_set` (lines 681-717) up to the send:
two independent `if` statements bind the local `unit` only for
`temperature_unit` equal to `"C"` or `"F"`; any other argument leaves
`unit` unassigned and `struct.pack` raises UnboundLocalError before any
datagram is sent, so no request is transmitted and the session is
untouched.  On success the value is (unchanged session, the single
request frame sent); temperatures are passed as raw 4-byte encodings. -/
def channel_temperature_limit_set_run (s : Session) (channel : Nat)
    (lowB highB : List Nat) (temperature_unit : String) :
    Except PyError (Session × List (List Nat)) :=
  match (if temperature_unit = "C" then some 1
         else if temperature_unit = "F" then some 2 else none : Option Nat) with
  | some u => Except.ok (s, [header s.password 0x52 ++ [0, 0, 0, channel] ++
      lowB ++ highB ++ [0, 0, 0, 0, 0, 0, 0, 0, u]])
  | none => Except.error PyError.unboundLocalError

/-- Run of `channel_sensor_type_set` (lines 977-1007) up to the send: the
local `sensor` is bound only for `sensor_type` equal to `"Pt-1000"` or
`"Pt-100"`; any other argument raises UnboundLocalError inside
`struct.pack`, before any datagram is sent. -/
def channel_sensor_type_set_run (s : Session) (channel : Nat)
    (sensor_type : String) : Except PyError (Session × List (List Nat)) :=
  match (if sensor_type = "Pt-1000" then some 1
         else if sensor_type = "Pt-100" then some 2 else none : Option Nat) with
  | some u => Except.ok (s, [header s.password 0x56 ++ [0, 0, 0, channel] ++
      reserved16 ++ [u]])
  | none => Except.error PyError.unboundLocalError

/-- A concrete session for closed-form witnesses and counterexamples. -/
def sessionW : Session :=
  init_session "192.168.0.2" 5000 "192.168.0.10" 6000 "12345678"

theorem padTrunc_length (n : Nat) (bs : List Nat) : (padTrunc n bs).length = n := by
  simp [padTrunc]
  omega

theorem header_getD_cmd (pw : String) (cmd : Nat) (rest : List Nat) :
    ((header pw cmd ++ rest).getD 15 0) = cmd := by
  have h15 : (cardId ++ padTrunc 8 (strBytes pw)).length = 15 := by
    simp [cardId, padTrunc_length]
  have hsplit : header pw cmd ++ rest =
      (cardId ++ padTrunc 8 (strBytes pw)) ++ (cmd :: rest) := by
    simp [header]
  rw [hsplit, List.getD_eq_getElem?_getD, ← h15, List.getElem?_append_right (le_refl _)]
  simp

/-- Claim C1 counterexample: start from a session whose cached remote
endpoint is ("192.168.0.10", 6000).  After `change_socket_port 7000` the
cached remote port is still 6000, not 7000, and after
`change_ip "10.0.0.9"` the cached remote IP is still "192.168.0.10" —
the functions update no module state, so the claim that the cached copy
of the changed field equals the new value is false. -/
theorem c1_counterexample :
    (change_socket_port_run sessionW 7000).1.targetport ≠ 7000 ∧
    (change_ip_run sessionW "10.0.0.9").1.targetip ≠ "10.0.0.9" := by
  constructor
  · intro h
    simp [change_socket_port_run, sessionW, init_session] at h
  · intro h
    simp [change_ip_run, sessionW, init_session] at h

/-- Claim C1 (amended): `change_socket_port` and `change_ip` leave the
session's locally cached endpoint fields — and the whole session state —
unchanged: neither declares a `global` nor assigns TARGETPORT or
TARGETIP, so every subsequently encoded request is still addressed to
the endpoint stored by `init`. -/
theorem c1_endpoint_cache_unchanged :
    ∀ (s : Session) (p : Nat) (ip : String),
      (change_socket_port_run s p).1 = s ∧ (change_ip_run s ip).1 = s := by
  intro s p ip
  exact ⟨rfl, rfl⟩

/-- Claim C2 counterexample: at the out-of-range unit byte 0x03 the
single-channel decode crashes with UnboundLocalError (modelled `none`) —
there is no UnrecognizedEnumByte outcome — and the all-channel decode
silently leaves the integer default 0 in the unit slot. -/
theorem c2_counterexample :
    channel_temperature_read_unit 3 = none ∧
    all_temperature_read_unit 3 = PyVal.intV 0 := by
  constructor <;> rfl

/-- Claim C2 (amended): unit byte 0x01 decodes to Celsius "C" and 0x02 to
Fahrenheit "F" in both temperature reads; for every other byte there is
no UnrecognizedEnumByte outcome — `channel_temperature_read` raises an
unbound-local error (modelled as `none`) and `all_temperature_read`
silently substitutes the integer default 0. -/
theorem c2_unit_decode :
    ∀ b : Nat,
      (channel_temperature_read_unit b = some "C" ↔ b = 1) ∧
      (channel_temperature_read_unit b = some "F" ↔ b = 2) ∧
      (channel_temperature_read_unit b = none ↔ (b ≠ 1 ∧ b ≠ 2)) ∧
      (all_temperature_read_unit b = PyVal.strV "C" ↔ b = 1) ∧
      (all_temperature_read_unit b = PyVal.strV "F" ↔ b = 2) ∧
      (all_temperature_read_unit b = PyVal.intV 0 ↔ (b ≠ 1 ∧ b ≠ 2)) := by
  intro b
  by_cases h1 : b = 1 <;> by_cases h2 : b = 2 <;>
    simp [channel_temperature_read_unit, all_temperature_read_unit, h1, h2]

/-- Claim C3: `output_mode_set` (documented command 0x32) packs the wire
command byte 0x30, so for all four mode inputs its request frame is
byte-for-byte the frame `output_set` builds on the same inputs, and the
command byte at offset 15 of that frame is 0x30. -/
theorem c3_output_mode_wire_code :
    ∀ (pw : String) (a b c d : Nat),
      output_mode_set_frame pw a b c d = output_set_frame pw a b c d ∧
      (output_mode_set_frame pw a b c d).getD 15 0 = 0x30 := by
  intro pw a b c d
  constructor
  · rfl
  · exact header_getD_cmd pw 0x30 _

/-- Claim C4 counterexample: on a 34-byte response whose raw status byte
is 0x00, `control_status_read` silently returns the negative status −1
and `wdt_read` silently returns watchdog status −1 — no
UnrecognizedEnumByte outcome exists for out-of-range raw bytes. -/
theorem c4_counterexample :
    control_status_read_decode (List.replicate 34 0) = some (-1, 0) ∧
    wdt_read_decode (List.replicate 34 0) = some ((0, 0, 0, 0), 0, -1, 0) := by
  constructor <;> rfl

/-- Claim C4 (amended): on every 34-byte response both decoders
unconditionally return the raw status byte minus 1 (as a signed
integer) together with the flag byte — the decode always succeeds, so
out-of-range raw bytes (e.g. 0x00) silently produce negative status
codes instead of an UnrecognizedEnumByte outcome. -/
theorem c4_status_minus_one :
    ∀ msg : List Nat, msg.length = 34 →
      control_status_read_decode msg = some ((msg.getD 24 0 : Int) - 1, msg.getD 32 0) ∧
      wdt_read_decode msg = some (unpack_bits (msg.getD 2 0),
        i16le (msg.getD 0 0) (msg.getD 1 0), (msg.getD 3 0 : Int) - 1, msg.getD 32 0) := by
  intro msg h
  constructor <;> simp [control_status_read_decode, wdt_read_decode, h]

/-- Witness for c4_status_minus_one at the all-zero 34-byte frame. -/
theorem c4_status_minus_one_witness :
    control_status_read_decode (List.replicate 34 0) =
      some (((List.replicate 34 0).getD 24 0 : Int) - 1, (List.replicate 34 0).getD 32 0) ∧
    wdt_read_decode (List.replicate 34 0) =
      some (unpack_bits ((List.replicate 34 0).getD 2 0),
        i16le ((List.replicate 34 0).getD 0 0) ((List.replicate 34 0).getD 1 0),
        ((List.replicate 34 0).getD 3 0 : Int) - 1, (List.replicate 34 0).getD 32 0) :=
  c4_status_minus_one (List.replicate 34 0) (by decide)

/-- Claim C5: on every well-formed 34-byte response the status flag the
code reads via `msg[0][-2]` is exactly the byte at offset 32, whatever
the other 33 bytes hold; every command in the catalog performs this
identical extraction. -/
theorem c5_flag_offset_32 :
    ∀ msg : List Nat, msg.length = 34 → flag_of msg = msg.get? 32 := by
  intro msg h
  simp [flag_of, h]

/-- Witness for c5_flag_offset_32 on a concrete frame whose byte 32 is 99. -/
theorem c5_flag_offset_32_witness :
    flag_of (List.replicate 32 0 ++ [99, 7]) =
      (List.replicate 32 0 ++ [99, 7]).get? 32 :=
  c5_flag_offset_32 (List.replicate 32 0 ++ [99, 7]) (by decide)

/-- Claim C6: packing four per-channel bits (bit i = channel i) and
unpacking the byte recovers the four bits, and conversely packing the
four unpacked bits of any byte value 0..15 recovers the byte. -/
theorem c6_bitmask_roundtrip :
    (∀ b0 b1 b2 b3 : Fin 2,
      unpack_bits (pack_bits b0.val b1.val b2.val b3.val) =
        (b0.val, b1.val, b2.val, b3.val)) ∧
    (∀ p : Fin 16,
      pack_bits (unpack_bits p.val).1 (unpack_bits p.val).2.1
        (unpack_bits p.val).2.2.1 (unpack_bits p.val).2.2.2 = p.val) := by
  constructor
  · decide
  · decide

/-- Claim C7: `all_temperature_limit_set` sends exactly two request
frames (its loop runs for i in range(2)), and `all_temperature_limit_read`
sends exactly two request frames and assembles its 4-channel result from
the two replies in order — the (low, high, unit) triples of channels 0
and 1 come from the first reply and those of channels 2 and 3 from the
second. -/
theorem c7_two_round_trips :
    (∀ (pw : String) (lows highs : Nat → List Nat) (units : Nat → Nat),
      (all_temperature_limit_set_requests pw lows highs units).length = 2) ∧
    (∀ (pw : String) (r1 r2 : List Nat), r1.length = 34 → r2.length = 34 →
      (all_temperature_limit_read_run pw r1 r2).1.length = 2 ∧
      (all_temperature_limit_read_run pw r1 r2).2 =
        some (channel_limit_triple r1 0 ++ channel_limit_triple r1 1 ++
              channel_limit_triple r2 0 ++ channel_limit_triple r2 1,
              r2.getD 32 0)) := by
  constructor
  · intro pw lows highs units
    simp [all_temperature_limit_set_requests]
  · intro pw r1 r2 h1 h2
    constructor
    · simp [all_temperature_limit_read_run, all_temperature_limit_read_requests]
    · simp [all_temperature_limit_read_run, h1, h2, channel_limit_triple]

/-- Witness for c7_two_round_trips at concrete reply frames of 34 bytes. -/
theorem c7_two_round_trips_witness :
    ((all_temperature_limit_set_requests "12345678" (fun _ => [0, 0, 0, 0])
        (fun _ => [0, 0, 0, 0]) (fun _ => 1)).length = 2) ∧
    ((all_temperature_limit_read_run "12345678" (List.range 34)
        (List.replicate 34 5)).1.length = 2 ∧
     (all_temperature_limit_read_run "12345678" (List.range 34)
        (List.replicate 34 5)).2 =
       some (channel_limit_triple (List.range 34) 0 ++
             channel_limit_triple (List.range 34) 1 ++
             channel_limit_triple (List.replicate 34 5) 0 ++
             channel_limit_triple (List.replicate 34 5) 1,
             (List.replicate 34 5).getD 32 0)) :=
  ⟨c7_two_round_trips.1 "12345678" (fun _ => [0, 0, 0, 0])
      (fun _ => [0, 0, 0, 0]) (fun _ => 1),
   c7_two_round_trips.2 "12345678" (List.range 34) (List.replicate 34 5)
      (by decide) (by decide)⟩

/-- Claim C8: `firmware_version_read` turns the version bytes at offsets
1 and 2 into the string "major.minor": bytes 0x01, 0x00 decode to "1.0"
and bytes 0x02, 0x05 decode to "2.5", whatever the rest of the 34-byte
frame holds. -/
theorem c8_firmware_version_decode :
    (∀ msg : List Nat, msg.length = 34 → msg.getD 1 0 = 1 → msg.getD 2 0 = 0 →
      firmware_version_read_decode msg = some ("1.0", msg.getD 32 0)) ∧
    (∀ msg : List Nat, msg.length = 34 → msg.getD 1 0 = 2 → msg.getD 2 0 = 5 →
      firmware_version_read_decode msg = some ("2.5", msg.getD 32 0)) := by
  constructor <;>
    · intro msg hl h1 h2
      simp only [firmware_version_read_decode]
      rw [if_pos hl, h1, h2]
      rfl

/-- Witness for c8_firmware_version_decode on two concrete frames. -/
theorem c8_firmware_version_decode_witness :
    firmware_version_read_decode ([0, 1, 0] ++ List.replicate 31 9) =
      some ("1.0", ([0, 1, 0] ++ List.replicate 31 9).getD 32 0) ∧
    firmware_version_read_decode ([0, 2, 5] ++ List.replicate 31 7) =
      some ("2.5", ([0, 2, 5] ++ List.replicate 31 7).getD 32 0) :=
  ⟨c8_firmware_version_decode.1 ([0, 1, 0] ++ List.replicate 31 9)
      (by decide) (by decide) (by decide),
   c8_firmware_version_decode.2 ([0, 2, 5] ++ List.replicate 31 7)
      (by decide) (by decide) (by decide)⟩

/-- Claim C9: decoding consumes exactly 34 bytes — on every reply whose
length differs from 34 the unpack raises (modelled `none`) and no
(result, flag) pair is produced, and whenever a flag is produced the
frame had exactly 34 bytes and the flag is its byte 32.  Shown for the
two catalog representatives the claim cites, `reboot_device` and
`channel_temperature_read`. -/
theorem c9_decode_exactly_34 :
    (∀ msg : List Nat, msg.length ≠ 34 →
      reboot_device_decode msg = none ∧
      channel_temperature_read_decode msg = none) ∧
    (∀ (msg : List Nat) (p : Unit × Nat), reboot_device_decode msg = some p →
      msg.length = 34 ∧ p.2 = msg.getD 32 0) ∧
    (∀ (msg : List Nat) (q : (List Nat × String) × Nat),
      channel_temperature_read_decode msg = some q →
      msg.length = 34 ∧ q.2 = msg.getD 32 0) := by
  refine ⟨?_, ?_, ?_⟩
  · intro msg h
    constructor <;> simp [reboot_device_decode, channel_temperature_read_decode, h]
  · intro msg p h
    by_cases hl : msg.length = 34
    · simp only [reboot_device_decode] at h
      rw [if_pos hl] at h
      exact ⟨hl, by rw [← Option.some.inj h]⟩
    · simp only [reboot_device_decode] at h
      rw [if_neg hl] at h
      exact absurd h (by simp)
  · intro msg q h
    by_cases hl : msg.length = 34
    · refine ⟨hl, ?_⟩
      simp only [channel_temperature_read_decode] at h
      rw [if_pos hl] at h
      rcases hu : channel_temperature_read_unit (msg.getD 20 0) with _ | u <;>
        rw [hu] at h
      · simp at h
      · rw [← Option.some.inj h]
    · simp only [channel_temperature_read_decode] at h
      rw [if_neg hl] at h
      exact absurd h (by simp)

/-- Witness for c9_decode_exactly_34: a 33-byte reply decodes to nothing,
and on a concrete 34-byte frame with unit byte 0x01 both decoders produce
a flag equal to byte 32. -/
theorem c9_decode_exactly_34_witness :
    (reboot_device_decode (List.replicate 33 0) = none ∧
     channel_temperature_read_decode (List.replicate 33 0) = none) ∧
    ((List.replicate 20 0 ++ [1] ++ List.replicate 13 2).length = 34 ∧
     (((), 2) : Unit × Nat).2 =
       (List.replicate 20 0 ++ [1] ++ List.replicate 13 2).getD 32 0) ∧
    ((List.replicate 20 0 ++ [1] ++ List.replicate 13 2).length = 34 ∧
     ((([0, 0, 0, 0], "C"), 2) :
         (List Nat × String) × Nat).2 =
       (List.replicate 20 0 ++ [1] ++ List.replicate 13 2).getD 32 0) :=
  ⟨c9_decode_exactly_34.1 (List.replicate 33 0) (by decide),
   c9_decode_exactly_34.2.1 (List.replicate 20 0 ++ [1] ++ List.replicate 13 2)
     ((), 2) (by decide),
   c9_decode_exactly_34.2.2 (List.replicate 20 0 ++ [1] ++ List.replicate 13 2)
     (([0, 0, 0, 0], "C"), 2) (by decide)⟩

/-- Claim C10: for every temperature_unit outside {"C", "F"} the local
`unit` of `channel_temperature_limit_set` is never assigned, so the call
fails with an unbound-local error while packing — before any datagram is
sent and leaving the session untouched; likewise `channel_sensor_type_set`
for every sensor_type outside {"Pt-1000", "Pt-100"}. -/
theorem c10_invalid_enum_fails_before_send :
    (∀ (s : Session) (ch : Nat) (lowB highB : List Nat) (u : String),
      u ≠ "C" → u ≠ "F" →
      channel_temperature_limit_set_run s ch lowB highB u =
        Except.error PyError.unboundLocalError) ∧
    (∀ (s : Session) (ch : Nat) (t : String),
      t ≠ "Pt-1000" → t ≠ "Pt-100" →
      channel_sensor_type_set_run s ch t =
        Except.error PyError.unboundLocalError) := by
  constructor
  · intro s ch lowB highB u h1 h2
    simp [channel_temperature_limit_set_run, h1, h2]
  · intro s ch t h1 h2
    simp [channel_sensor_type_set_run, h1, h2]

/-- Witness for c10_invalid_enum_fails_before_send at the concrete
arguments "Kelvin" and "PT-100". -/
theorem c10_invalid_enum_witness :
    channel_temperature_limit_set_run sessionW 0 [0, 0, 0, 0] [0, 0, 0, 0]
        "Kelvin" = Except.error PyError.unboundLocalError ∧
    channel_sensor_type_set_run sessionW 0 "PT-100" =
        Except.error PyError.unboundLocalError :=
  ⟨c10_invalid_enum_fails_before_send.1 sessionW 0 [0, 0, 0, 0] [0, 0, 0, 0]
      "Kelvin" (by decide) (by decide),
   c10_invalid_enum_fails_before_send.2 sessionW 0 "PT-100"
      (by decide) (by decide)⟩

end EMA8314
